import Mathlib

/-!
Verification of the guardrails server configuration (`docker/guardrails/config.py`)
against its specification.

The repository source is a declarative configuration: it builds four named
`Guard` objects from library validators (`DetectPII`, `ToxicLanguage`).  The
guard pipeline, registry and dispatcher themselves live in the external
`guardrails` library, so they are modelled here from the specification
component design (§3, §4): texts are sequences of units (tokens/sentences),
detection backends are black-box parameters, and every operation is an
executable Lean function.
-/

/-- Modelled from the spec: a text payload, represented as its ordered
sequence of units (tokens / sentences); the concrete string mechanics of the
external library are not part of the repository. -/
abbrev Text := List String

/-- Modelled from the spec (§3, glossary): the `on_fail` policy of a
validator. -/
inductive OnFail
  | fix
  | noop
  | exception
  | reask
deriving DecidableEq

/-- Modelled from the spec (§4.1): the granularity at which a toxicity
validator splits the text (`validation_method` in the source config). -/
inductive Granularity
  | document
  | sentence
deriving DecidableEq

/-- Modelled from the spec (§3): the direction a guard is bound to
(`on="prompt"` or `on="output"` in the source config). -/
inductive GuardDirection
  | prompt
  | output
deriving DecidableEq

/-- Modelled from the spec (§3): a failed span `(start, end, label)`. -/
structure Span where
  start : Nat
  stop : Nat
  label : String
deriving DecidableEq

/-- Modelled from the spec (§3): the result of one validator check. -/
structure Verdict where
  passed : Bool
  failed_spans : List Span
  fixed_text : Option Text
  score : Option ℚ
deriving DecidableEq

/-- Modelled from the spec (§1, §4.1): the external detection capability the
validators delegate to.  `tokenLabel` classifies a unit as a PII entity type
(or not); `toxScore` scores a unit for toxicity.  Both are pure, as §4.1
requires of `check`. -/
structure Backend where
  tokenLabel : String → Option String
  toxScore : String → ℚ

/-- Modelled from the spec (§4.1, §9): the closed set of validator variants
used by the configuration: `DetectPII(pii_entities, on_fail)` and
`ToxicLanguage(threshold, validation_method, on_fail)`. -/
inductive ValidatorSpec
  | detectPII (entities : List String) (f : OnFail)
  | toxicLanguage (threshold : ℚ) (granularity : Granularity) (f : OnFail)
deriving DecidableEq

/-- Modelled from the spec (§4.1): the PII matches of a text, as
`(unit index, entity label)` pairs, scanning units from position `i`. -/
def piiHitsFrom (B : Backend) (entities : List String) : Nat → Text → List (Nat × String)
  | _, [] => []
  | i, u :: us =>
    match B.tokenLabel u with
    | some l =>
        if l ∈ entities then (i, l) :: piiHitsFrom B entities (i + 1) us
        else piiHitsFrom B entities (i + 1) us
    | none => piiHitsFrom B entities (i + 1) us

/-- Modelled from the spec (§4.1): all PII matches of a text. -/
def piiHits (B : Backend) (entities : List String) (t : Text) : List (Nat × String) :=
  piiHitsFrom B entities 0 t

/-- Modelled from the spec (§4.1): redaction of one unit — a matched unit is
replaced with a placeholder token `<LABEL>`. -/
def redactUnit (B : Backend) (entities : List String) (u : String) : String :=
  match B.tokenLabel u with
  | some l => if l ∈ entities then "<" ++ l ++ ">" else u
  | none => u

/-- Modelled from the spec (§4.1): redaction of a text — every matched span
is replaced with its placeholder token. -/
def redact (B : Backend) (entities : List String) (t : Text) : Text :=
  t.map (redactUnit B entities)

/-- Modelled from the spec (§4.1): the `check` of a `PII_DETECTION`
validator.  Every match produces a failed span; with `on_fail = fix` the
matched spans are redacted and `fixed_text` is set. -/
def piiCheck (B : Backend) (entities : List String) (f : OnFail) (t : Text) : Verdict :=
  match piiHits B entities t with
  | [] => ⟨true, [], none, none⟩
  | hits =>
      ⟨false, hits.map (fun p => ⟨p.1, p.1 + 1, p.2⟩),
       if f = OnFail.fix then some (redact B entities t) else none, none⟩

/-- Modelled from the spec (§4.1): the scoring units of a toxicity check —
each unit separately at `sentence` granularity, the whole joined text at
`document` granularity. -/
def toxUnits (g : Granularity) (t : Text) : List String :=
  match g with
  | Granularity.sentence => t
  | Granularity.document => [String.intercalate " " t]

/-- Modelled from the spec (§4.1): the flagged units — those whose score
reaches the threshold — as `(unit index, unit)` pairs from position `i`. -/
def toxHitsFrom (B : Backend) (th : ℚ) : Nat → List String → List (Nat × String)
  | _, [] => []
  | i, u :: us =>
    if th ≤ B.toxScore u then (i, u) :: toxHitsFrom B th (i + 1) us
    else toxHitsFrom B th (i + 1) us

/-- Modelled from the spec (§3): the confidence score reported by a toxicity
check — the maximal unit score. -/
def maxScoreOf (B : Backend) (units : List String) : Option ℚ :=
  match units.map B.toxScore with
  | [] => none
  | s :: ss => some (ss.foldl max s)

/-- Modelled from the spec (§4.1): the `check` of a `TOXICITY` validator.
Flagged units become failed spans; the text is never altered
(`fixed_text = none`). -/
def toxCheck (B : Backend) (th : ℚ) (g : Granularity) (t : Text) : Verdict :=
  match toxHitsFrom B th 0 (toxUnits g t) with
  | [] => ⟨true, [], none, maxScoreOf B (toxUnits g t)⟩
  | hits =>
      ⟨false, hits.map (fun p => ⟨p.1, p.1 + 1, "TOXIC_LANGUAGE"⟩), none,
       maxScoreOf B (toxUnits g t)⟩

/-- Modelled from the spec (§4.1): `check(text) -> Verdict`, dispatching on
the validator variant. -/
def checkValidator (B : Backend) (v : ValidatorSpec) (t : Text) : Verdict :=
  match v with
  | ValidatorSpec.detectPII es f => piiCheck B es f t
  | ValidatorSpec.toxicLanguage th g _ => toxCheck B th g t

/-- The `on_fail` policy of a validator. -/
def onFailOf : ValidatorSpec → OnFail
  | ValidatorSpec.detectPII _ f => f
  | ValidatorSpec.toxicLanguage _ _ f => f

/-- Modelled from the spec (§3): a guard — a named, ordered, direction-bound
pipeline of validators. -/
structure Guard where
  name : String
  direction : GuardDirection
  validators : List ValidatorSpec
deriving DecidableEq

/-- Modelled from the spec (§3): the aggregate result of running a guard. -/
structure ValidationOutcome where
  guard_name : String
  original_text : Text
  final_text : Text
  passed : Bool
  per_validator : List Verdict
deriving DecidableEq

/-- Modelled from the spec (§4.2, §7): `GuardRejected`, carrying the
blocking verdict. -/
inductive GuardError
  | guardRejected (v : Verdict)
deriving DecidableEq

/-- Modelled from the spec (§4.2): the effect of one validator verdict on
the pipeline:  a passing verdict leaves the text unchanged; a failing one is
resolved by its `on_fail` policy — `fix` substitutes the repaired text,
`noop` continues unchanged, `reask` continues unchanged but blocks the
aggregate `passed`, `exception` halts with `GuardRejected`. -/
def stepPolicy (B : Backend) (v : ValidatorSpec) (t : Text) : Except GuardError (Text × Bool) :=
  let vd := checkValidator B v t
  if vd.passed then Except.ok (t, true)
  else
    match onFailOf v with
    | OnFail.exception => Except.error (GuardError.guardRejected vd)
    | OnFail.fix => Except.ok (vd.fixed_text.getD t, true)
    | OnFail.noop => Except.ok (t, true)
    | OnFail.reask => Except.ok (t, false)

/-- Modelled from the spec (§4.2): run the validators in declaration order,
threading the (possibly fixed) text left to right; returns the final text,
the aggregate `passed` flag and the per-validator verdicts. -/
def runAux (B : Backend) : List ValidatorSpec → Text → Except GuardError (Text × Bool × List Verdict)
  | [], t => Except.ok (t, true, [])
  | v :: vs, t =>
    match stepPolicy B v t with
    | Except.error e => Except.error e
    | Except.ok (t2, okv) =>
      match runAux B vs t2 with
      | Except.error e => Except.error e
      | Except.ok (tf, okRest, vds) =>
          Except.ok (tf, okv && okRest, checkValidator B v t :: vds)

/-- Modelled from the spec (§4.2): `Guard.run(text) -> ValidationOutcome`,
failing with `GuardRejected` when an `exception`-policy validator fails. -/
def Guard.run (B : Backend) (g : Guard) (t : Text) : Except GuardError ValidationOutcome :=
  match runAux B g.validators t with
  | Except.error e => Except.error e
  | Except.ok (tf, ok, vds) => Except.ok ⟨g.name, t, tf, ok, vds⟩

/-- Modelled from the spec (§3, §4.3): the process-wide guard registry, a
mapping from guard name to guard kept as the list of registered guards. -/
structure GuardRegistry where
  guards : List Guard
deriving DecidableEq

/-- Modelled from the spec (§7): `DuplicateGuardError`. -/
inductive RegistryError
  | duplicateGuard (nm : String)
deriving DecidableEq

/-- Modelled from the spec (§4.3): the registered names, in registration
order. -/
def GuardRegistry.list_names (r : GuardRegistry) : List String :=
  r.guards.map Guard.name

/-- Modelled from the spec (§4.3): `register(guard)` — fails with
`DuplicateGuardError` if the name is already present. -/
def GuardRegistry.register (r : GuardRegistry) (g : Guard) : Except RegistryError GuardRegistry :=
  if g.name ∈ r.list_names then Except.error (RegistryError.duplicateGuard g.name)
  else Except.ok ⟨r.guards ++ [g]⟩

/-- Modelled from the spec (§4.3): `get(name)` — the first guard registered
under the name, if any. -/
def GuardRegistry.get (r : GuardRegistry) (nm : String) : Option Guard :=
  r.guards.find? (fun g => g.name == nm)

/-- Modelled from the spec (§7): the per-request error taxonomy of the
dispatcher. -/
inductive DispatchError
  | unknownGuard (nm : String)
  | emptyInput
  | rejected (v : Verdict)
deriving DecidableEq

/-- Modelled from the spec (§4.4): `dispatch(guard_name, text)` — look up
the guard (`UnknownGuardError` if absent), reject empty input
(`EmptyInputError`), then invoke `guard.run(text)`. -/
def dispatch (B : Backend) (r : GuardRegistry) (nm : String) (t : Text) : Except DispatchError ValidationOutcome :=
  match r.get nm with
  | none => Except.error (DispatchError.unknownGuard nm)
  | some g =>
    if t.isEmpty then Except.error DispatchError.emptyInput
    else
      match g.run B t with
      | Except.error (GuardError.guardRejected v) => Except.error (DispatchError.rejected v)
      | Except.ok o => Except.ok o

/-- Modelled from the spec (§7): the fatal startup errors. -/
inductive StartupError
  | configurationError (nm : String)
  | duplicateGuard (nm : String)
deriving DecidableEq

/-- Modelled from the spec (§4.1): static validity of the parameters of a validator — a `ConfigurationError` arises iff a threshold lies outside
`[0,1]` or an entity set is empty. -/
def validatorConfigOk : ValidatorSpec → Bool
  | ValidatorSpec.detectPII es _ => decide (es ≠ [])
  | ValidatorSpec.toxicLanguage th _ _ => decide (0 ≤ th ∧ th ≤ 1)

/-- Modelled from the spec (§3): static validity of a guard — a non-empty
validator sequence whose validators all have valid parameters. -/
def guardConfigOk (g : Guard) : Bool :=
  decide (g.validators ≠ []) && g.validators.all validatorConfigOk

/-- Modelled from the spec (§4.3, §6, §7): startup — register the configured
guards in order, aborting with a fatal error on an invalid configuration or
a duplicate name. -/
def registerAll (r : GuardRegistry) : List Guard → Except StartupError GuardRegistry
  | [] => Except.ok r
  | g :: gs =>
    if guardConfigOk g then
      match r.register g with
      | Except.error (RegistryError.duplicateGuard nm) => Except.error (StartupError.duplicateGuard nm)
      | Except.ok r2 => registerAll r2 gs
    else Except.error (StartupError.configurationError g.name)

/-- The PII entity types of `config.py` (shared by `pii_input_guard` and
`pii_output_guard`). -/
def pii_entities : List String :=
  ["EMAIL_ADDRESS", "PHONE_NUMBER", "PERSON", "CREDIT_CARD", "US_SSN",
   "IBAN_CODE", "IP_ADDRESS"]

/-- The `ToxicLanguage` threshold `0.5` of `jailbreak_guard` in
`config.py`. -/
def jailbreakThreshold : ℚ := mkRat 1 2

/-- The `ToxicLanguage` threshold `0.7` of `toxicity_guard` in
`config.py`. -/
def toxicityThreshold : ℚ := mkRat 7 10

/-- `config.py` lines 15–29: `pii_input_guard`, a `DetectPII` validator over
the seven entity types with `on_fail="fix"`, on the prompt. -/
def pii_input_guard : Guard :=
  ⟨"pii-input-guard", GuardDirection.prompt,
   [ValidatorSpec.detectPII pii_entities OnFail.fix]⟩

/-- `config.py` lines 31–41: `jailbreak_guard`, a `ToxicLanguage` validator
(threshold 0.5, sentence granularity) with `on_fail="noop"`, on the
prompt. -/
def jailbreak_guard : Guard :=
  ⟨"jailbreak-guard", GuardDirection.prompt,
   [ValidatorSpec.toxicLanguage jailbreakThreshold Granularity.sentence OnFail.noop]⟩

/-- `config.py` lines 47–54: `toxicity_guard`, a `ToxicLanguage` validator
(threshold 0.7, sentence granularity) with `on_fail="noop"`, on the
output. -/
def toxicity_guard : Guard :=
  ⟨"toxicity-guard", GuardDirection.output,
   [ValidatorSpec.toxicLanguage toxicityThreshold Granularity.sentence OnFail.noop]⟩

/-- `config.py` lines 56–70: `pii_output_guard`, a `DetectPII` validator over
the seven entity types with `on_fail="fix"`, on the output. -/
def pii_output_guard : Guard :=
  ⟨"pii-output-guard", GuardDirection.output,
   [ValidatorSpec.detectPII pii_entities OnFail.fix]⟩

/-- The four guards declared by `config.py`, in declaration order. -/
def configGuards : List Guard :=
  [pii_input_guard, jailbreak_guard, toxicity_guard, pii_output_guard]

/-- A concrete detection backend used for evaluating the model on concrete
inputs: it recognises the unit `a@b.com` as an email address and the unit
`555-1234` as a phone number, and scores the unit `kill` as highly toxic. -/
def demoBackend : Backend :=
  ⟨fun u =>
      if u = "a@b.com" then some "EMAIL_ADDRESS"
      else if u = "555-1234" then some "PHONE_NUMBER"
      else none,
   fun u => if u = "kill" then mkRat 9 10 else mkRat 1 10⟩

/-- The scenario text `"Contact me at a@b.com"`, as its unit sequence. -/
def demoText : Text := ["Contact", "me", "at", "a@b.com"]

/-- The outcome of `pii_input_guard` on the scenario text under
`demoBackend`. -/
def demoOutcome : ValidationOutcome :=
  ⟨"pii-input-guard", demoText, ["Contact", "me", "at", "<EMAIL_ADDRESS>"], true,
   [⟨false, [⟨3, 4, "EMAIL_ADDRESS"⟩], some ["Contact", "me", "at", "<EMAIL_ADDRESS>"], none⟩]⟩

deriving instance DecidableEq for Except

/-- The text a validator hands to its successor (§4.2): unchanged when it
passes, the repaired text when it fails under `fix`, unchanged otherwise. -/
def feedText (B : Backend) (v : ValidatorSpec) (t : Text) : Text :=
  let vd := checkValidator B v t
  if vd.passed then t
  else
    match onFailOf v with
    | OnFail.fix => vd.fixed_text.getD t
    | _ => t

/-- The input text seen by each validator of a pipeline, in declaration
order. -/
def inputs (B : Backend) : List ValidatorSpec → Text → List Text
  | [], _ => []
  | v :: vs, t => t :: inputs B vs (feedText B v t)

/-- The text left after the whole pipeline has threaded the input through
its `fix` policies. -/
def finalOf (B : Backend) : List ValidatorSpec → Text → Text
  | [], t => t
  | v :: vs, t => finalOf B vs (feedText B v t)

/-- The final text of a single `DetectPII`/`fix` pipeline: the input when
nothing matched, its redaction otherwise. -/
def piiFinal (B : Backend) (es : List String) (t : Text) : Text :=
  match piiHits B es t with
  | [] => t
  | _ => redact B es t

/-- The direction- and name-independent payload of an outcome. -/
def outcomeData (o : ValidationOutcome) : Text × Text × Bool × List Verdict :=
  (o.original_text, o.final_text, o.passed, o.per_validator)

/-- A `ToxicLanguage` validator with the jailbreak threshold but an
`exception` policy, for exercising the halting branch of the pipeline. -/
def exceptionVal : ValidatorSpec :=
  ValidatorSpec.toxicLanguage jailbreakThreshold Granularity.sentence OnFail.exception

/-- A `ToxicLanguage` validator with the jailbreak threshold and a `noop`
policy. -/
def noopVal : ValidatorSpec :=
  ValidatorSpec.toxicLanguage jailbreakThreshold Granularity.sentence OnFail.noop

/-- A registry holding only `pii_input_guard`. -/
def demoRegistry : GuardRegistry := ⟨[pii_input_guard]⟩

/-- A second guard carrying the name `pii-input-guard`, for the duplicate
registration scenario. -/
def shadowGuard : Guard :=
  ⟨"pii-input-guard", GuardDirection.output,
   [ValidatorSpec.detectPII pii_entities OnFail.fix]⟩

/-- The outcome of `pii_input_guard` on the redacted scenario text. -/
def demoOutcome2 : ValidationOutcome :=
  ⟨"pii-input-guard", ["Contact", "me", "at", "<EMAIL_ADDRESS>"],
   ["Contact", "me", "at", "<EMAIL_ADDRESS>"], true, [⟨true, [], none, none⟩]⟩

theorem stepPolicy_ok (B : Backend) (v : ValidatorSpec) (t t2 : Text) (b : Bool)
    (h : stepPolicy B v t = Except.ok (t2, b)) :
    t2 = feedText B v t ∧
      (b = true →
        (checkValidator B v t).passed = true ∨ onFailOf v = OnFail.fix ∨ onFailOf v = OnFail.noop) := by
  unfold stepPolicy at h
  unfold feedText
  cases hp : (checkValidator B v t).passed with
  | true =>
    simp [hp] at h ⊢
    exact h.1.symm
  | false =>
    simp [hp] at h ⊢
    cases hf : onFailOf v with
    | exception => rw [hf] at h; simp at h
    | fix =>
      rw [hf] at h
      simp at h
      exact ⟨h.1.symm, fun _ => Or.inl rfl⟩
    | noop =>
      rw [hf] at h
      simp at h
      exact ⟨h.1.symm, fun _ => Or.inr rfl⟩
    | reask =>
      rw [hf] at h
      simp at h
      refine ⟨h.1.symm, fun hb => ?_⟩
      rw [hb] at h
      simp at h

theorem stepPolicy_exception (B : Backend) (v : ValidatorSpec) (t : Text)
    (hf : (checkValidator B v t).passed = false) (he : onFailOf v = OnFail.exception) :
    stepPolicy B v t = Except.error (GuardError.guardRejected (checkValidator B v t)) := by
  unfold stepPolicy
  simp [hf, he]

theorem runAux_ok_shape (B : Backend) (vs : List ValidatorSpec) :
    ∀ (t tf : Text) (b : Bool) (vds : List Verdict),
      runAux B vs t = Except.ok (tf, b, vds) →
      vds = List.zipWith (fun v ti => checkValidator B v ti) vs (inputs B vs t) ∧
      tf = finalOf B vs t ∧
      (b = true → ∀ p ∈ vs.zip vds,
        p.2.passed = true ∨ onFailOf p.1 = OnFail.fix ∨ onFailOf p.1 = OnFail.noop) := by
  induction vs with
  | nil =>
    intro t tf b vds h
    simp only [runAux] at h
    simp at h
    obtain ⟨h1, h2, h3⟩ := h
    subst h1; subst h2; subst h3
    simp [inputs, finalOf]
  | cons v vs ih =>
    intro t tf b vds h
    simp only [runAux] at h
    cases h1 : stepPolicy B v t with
    | error e => rw [h1] at h; simp at h
    | ok p =>
      obtain ⟨tm, okv⟩ := p
      rw [h1] at h
      simp only [] at h
      cases h2 : runAux B vs tm with
      | error e => rw [h2] at h; simp at h
      | ok q =>
        obtain ⟨tf2, okr, vds2⟩ := q
        rw [h2] at h
        simp at h
        obtain ⟨htf, hb, hvds⟩ := h
        obtain ⟨htm, hok⟩ := stepPolicy_ok B v t tm okv h1
        obtain ⟨ivds, itf, ipass⟩ := ih tm tf2 okr vds2 h2
        subst htm
        constructor
        · rw [← hvds, ivds]
          simp [inputs]
        constructor
        · rw [← htf, itf]
          simp [finalOf]
        · intro hbt
          rw [← hb] at hbt
          rw [Bool.and_eq_true] at hbt
          intro p hp
          rw [← hvds] at hp
          simp [List.zip_cons_cons] at hp
          rcases hp with hhead | htail
          · rw [hhead]
            exact hok hbt.1
          · exact ipass hbt.2 p htail

theorem runAux_append_error (B : Backend) (v : ValidatorSpec) (post : List ValidatorSpec)
    (e : GuardError) (pre : List ValidatorSpec) :
    ∀ (t t2 : Text) (b : Bool) (vds : List Verdict),
      runAux B pre t = Except.ok (t2, b, vds) →
      stepPolicy B v t2 = Except.error e →
      runAux B (pre ++ v :: post) t = Except.error e := by
  induction pre with
  | nil =>
    intro t t2 b vds h hstep
    simp only [runAux] at h
    simp at h
    obtain ⟨h1, -, -⟩ := h
    subst h1
    simp only [List.nil_append, runAux, hstep]
  | cons u pre ih =>
    intro t t2 b vds h hstep
    simp only [runAux] at h
    cases h1 : stepPolicy B u t with
    | error e2 => rw [h1] at h; simp at h
    | ok p =>
      obtain ⟨tm, okv⟩ := p
      rw [h1] at h
      simp only [] at h
      cases h2 : runAux B pre tm with
      | error e2 => rw [h2] at h; simp at h
      | ok q =>
        obtain ⟨tf, okr, vds2⟩ := q
        rw [h2] at h
        simp at h
        obtain ⟨htf, -, -⟩ := h
        subst htf
        have hrec := ih tm tf okr vds2 h2 hstep
        simp only [List.cons_append, runAux, h1, List.append_eq, hrec]

theorem run_ok_inv (B : Backend) (g : Guard) (t : Text) (o : ValidationOutcome)
    (h : Guard.run B g t = Except.ok o) :
    runAux B g.validators t = Except.ok (o.final_text, o.passed, o.per_validator) ∧
      o.guard_name = g.name ∧ o.original_text = t := by
  unfold Guard.run at h
  cases h2 : runAux B g.validators t with
  | error e => rw [h2] at h; simp at h
  | ok q =>
    obtain ⟨tf, ok, vds⟩ := q
    rw [h2] at h
    simp at h
    rw [← h]
    exact ⟨rfl, rfl, rfl⟩

theorem runAux_all_pass (B : Backend) (vs : List ValidatorSpec) :
    ∀ (t : Text), (∀ v ∈ vs, (checkValidator B v t).passed = true) →
      runAux B vs t = Except.ok (t, true, vs.map (fun v => checkValidator B v t)) := by
  induction vs with
  | nil => intro t _; simp [runAux]
  | cons v vs ih =>
    intro t h
    have hv : (checkValidator B v t).passed = true := h v (List.mem_cons_self v vs)
    have hstep : stepPolicy B v t = Except.ok (t, true) := by
      unfold stepPolicy
      simp [hv]
    simp only [runAux, hstep]
    rw [ih t (fun w hw => h w (List.mem_cons_of_mem v hw))]
    simp

theorem toxNoopRun (B : Backend) (nm : String) (dr : GuardDirection) (th : ℚ)
    (gr : Granularity) (t : Text) :
    Guard.run B ⟨nm, dr, [ValidatorSpec.toxicLanguage th gr OnFail.noop]⟩ t =
      Except.ok ⟨nm, t, t, true, [toxCheck B th gr t]⟩ := by
  have hstep : stepPolicy B (ValidatorSpec.toxicLanguage th gr OnFail.noop) t =
      Except.ok (t, true) := by
    unfold stepPolicy
    cases hp : (checkValidator B (ValidatorSpec.toxicLanguage th gr OnFail.noop) t).passed with
    | true => simp [hp]
    | false => simp [hp, onFailOf]
  unfold Guard.run
  simp only [runAux, hstep]
  simp [checkValidator]

theorem piiFixRun (B : Backend) (es : List String) (nm : String) (dr : GuardDirection) (t : Text) :
    Guard.run B ⟨nm, dr, [ValidatorSpec.detectPII es OnFail.fix]⟩ t =
      Except.ok ⟨nm, t, piiFinal B es t, true, [piiCheck B es OnFail.fix t]⟩ := by
  have hcheck : checkValidator B (ValidatorSpec.detectPII es OnFail.fix) t =
      piiCheck B es OnFail.fix t := rfl
  cases hh : piiHits B es t with
  | nil =>
    have hvd : piiCheck B es OnFail.fix t = ⟨true, [], none, none⟩ := by
      unfold piiCheck
      rw [hh]
    have hstep : stepPolicy B (ValidatorSpec.detectPII es OnFail.fix) t = Except.ok (t, true) := by
      unfold stepPolicy
      rw [hcheck, hvd]
      simp
    unfold Guard.run
    simp only [runAux, hstep]
    simp [hcheck, piiFinal, hh]
  | cons hd tl =>
    have hvd : piiCheck B es OnFail.fix t =
        ⟨false, (hd :: tl).map (fun p => ⟨p.1, p.1 + 1, p.2⟩), some (redact B es t), none⟩ := by
      unfold piiCheck
      rw [hh]
      simp
    have hstep : stepPolicy B (ValidatorSpec.detectPII es OnFail.fix) t =
        Except.ok (redact B es t, true) := by
      unfold stepPolicy
      rw [hcheck, hvd]
      simp [onFailOf]
    unfold Guard.run
    simp only [runAux, hstep]
    simp [hcheck, piiFinal, hh]

theorem piiHitsFrom_nil_no_match (B : Backend) (es : List String) (t : Text) :
    ∀ (i : Nat), piiHitsFrom B es i t = [] →
      ∀ u ∈ t, ∀ l, B.tokenLabel u = some l → l ∉ es := by
  induction t with
  | nil => intro i _ u hu; simp at hu
  | cons w ws ih =>
    intro i h u hu l hl hmem
    simp only [piiHitsFrom] at h
    cases hw : B.tokenLabel w with
    | none =>
      rw [hw] at h
      rcases List.mem_cons.mp hu with hwu | hws
      · subst hwu; rw [hw] at hl; cases hl
      · exact ih (i + 1) h u hws l hl hmem
    | some l2 =>
      rw [hw] at h
      by_cases h2 : l2 ∈ es
      · simp [h2] at h
      · simp [h2] at h
        rcases List.mem_cons.mp hu with hwu | hws
        · subst hwu
          rw [hw] at hl
          injection hl with hl2
          subst hl2
          exact h2 hmem
        · exact ih (i + 1) h u hws l hl hmem

theorem mem_redact_matched (B : Backend) (es : List String) (t : Text) (u l : String)
    (H : ∀ l2 ∈ es, B.tokenLabel ("<" ++ l2 ++ ">") = none)
    (hu : B.tokenLabel u = some l) (hl : l ∈ es) : u ∉ redact B es t := by
  intro hmem
  rw [redact, List.mem_map] at hmem
  obtain ⟨w, hw, hwe⟩ := hmem
  cases hw2 : B.tokenLabel w with
  | none =>
    simp only [redactUnit, hw2] at hwe
    rw [hwe] at hw2
    rw [hu] at hw2
    cases hw2
  | some l2 =>
    simp only [redactUnit, hw2] at hwe
    by_cases h2 : l2 ∈ es
    · simp only [h2, if_pos] at hwe
      rw [← hwe] at hu
      rw [H l2 h2] at hu
      cases hu
    · simp only [h2, if_neg, not_false_iff] at hwe
      rw [hwe] at hw2
      rw [hu] at hw2
      injection hw2 with hw3
      exact h2 (hw3 ▸ hl)

theorem piiHits_redact_nil (B : Backend) (es : List String)
    (H : ∀ l2 ∈ es, B.tokenLabel ("<" ++ l2 ++ ">") = none) (t : Text) :
    ∀ (i : Nat), piiHitsFrom B es i (redact B es t) = [] := by
  induction t with
  | nil => intro i; simp [redact, piiHitsFrom]
  | cons w ws ih =>
    intro i
    have hred : redact B es (w :: ws) = redactUnit B es w :: redact B es ws := by
      simp [redact]
    rw [hred]
    simp only [piiHitsFrom]
    unfold redactUnit
    cases hw : B.tokenLabel w with
    | none =>
      rw [hw]
      exact ih (i + 1)
    | some l2 =>
      by_cases h2 : l2 ∈ es
      · simp only [h2, if_pos]
        rw [H l2 h2]
        exact ih (i + 1)
      · simp only [h2, if_neg, not_false_iff]
        rw [hw]
        simp [h2]
        exact ih (i + 1)

/-- Claim C1: `Guard.run` reports `passed = true` only if every validator produced a passing verdict or its `on_fail` policy is `fix` or `noop`; and when a
validator with policy `exception` fails, the run halts with `GuardRejected`
carrying that first failing verdict, whatever validators follow it. -/
theorem guard_passed_aggregation_and_exception_halts :
    (∀ (B : Backend) (g : Guard) (t : Text) (o : ValidationOutcome),
      Guard.run B g t = Except.ok o → o.passed = true →
      ∀ p ∈ g.validators.zip o.per_validator,
        p.2.passed = true ∨ onFailOf p.1 = OnFail.fix ∨ onFailOf p.1 = OnFail.noop) ∧
    (∀ (B : Backend) (nm : String) (dr : GuardDirection) (pre post : List ValidatorSpec)
      (v : ValidatorSpec) (t t2 : Text) (b : Bool) (vds : List Verdict),
      runAux B pre t = Except.ok (t2, b, vds) →
      (checkValidator B v t2).passed = false →
      onFailOf v = OnFail.exception →
      Guard.run B ⟨nm, dr, pre ++ v :: post⟩ t =
        Except.error (GuardError.guardRejected (checkValidator B v t2))) := by
  constructor
  · intro B g t o hrun hpass p hp
    obtain ⟨haux, -, -⟩ := run_ok_inv B g t o hrun
    obtain ⟨-, -, hall⟩ :=
      runAux_ok_shape B g.validators t o.final_text o.passed o.per_validator haux
    exact hall hpass p hp
  · intro B nm dr pre post v t t2 b vds haux hf he
    have hstep := stepPolicy_exception B v t2 hf he
    have hrec := runAux_append_error B v post
      (GuardError.guardRejected (checkValidator B v t2)) pre t t2 b vds haux hstep
    unfold Guard.run
    rw [hrec]

/-- Claim C2: `Guard.run` evaluates the validators in declaration order,
feeding each one the output text of the previous validator (the fixed text when
it fixed, the unchanged text otherwise), and the final text is the
left-to-right composition of the `fix` repairs. -/
theorem guard_run_order_and_text_threading :
    ∀ (B : Backend) (g : Guard) (t : Text) (o : ValidationOutcome),
      Guard.run B g t = Except.ok o →
      o.guard_name = g.name ∧ o.original_text = t ∧
      o.per_validator =
        List.zipWith (fun v ti => checkValidator B v ti) g.validators
          (inputs B g.validators t) ∧
      o.final_text = finalOf B g.validators t := by
  intro B g t o hrun
  obtain ⟨haux, hname, horig⟩ := run_ok_inv B g t o hrun
  obtain ⟨hvds, htf, -⟩ :=
    runAux_ok_shape B g.validators t o.final_text o.passed o.per_validator haux
  exact ⟨hname, horig, hvds, htf⟩

/-- Claim C3: a guard whose single validator is a toxicity check with
`on_fail = noop` — as `jailbreak-guard` (threshold 0.5) and
`toxicity-guard` (threshold 0.7) are configured — always succeeds with the
text unchanged: it never blocks and never rewrites, it only records. -/
theorem toxicity_noop_never_alters_text :
    (∀ (B : Backend) (nm : String) (dr : GuardDirection) (th : ℚ) (gr : Granularity) (t : Text),
      ∃ o, Guard.run B ⟨nm, dr, [ValidatorSpec.toxicLanguage th gr OnFail.noop]⟩ t =
          Except.ok o ∧
        o.original_text = t ∧ o.final_text = t ∧ o.passed = true) ∧
    (∀ (B : Backend) (t : Text),
      ∃ o, Guard.run B jailbreak_guard t = Except.ok o ∧ o.final_text = t ∧ o.passed = true) ∧
    (∀ (B : Backend) (t : Text),
      ∃ o, Guard.run B toxicity_guard t = Except.ok o ∧ o.final_text = t ∧ o.passed = true) :=
  ⟨fun B nm dr th gr t => ⟨_, toxNoopRun B nm dr th gr t, rfl, rfl, rfl⟩,
   fun B t =>
     ⟨_, toxNoopRun B "jailbreak-guard" GuardDirection.prompt jailbreakThreshold
       Granularity.sentence t, rfl, rfl⟩,
   fun B t =>
     ⟨_, toxNoopRun B "toxicity-guard" GuardDirection.output toxicityThreshold
       Granularity.sentence t, rfl, rfl⟩⟩

/-- Claim C4: a `DetectPII` validator with `on_fail = fix` removes every
matched span from the final text (given that the backend never classifies a
placeholder token as PII); and `pii-input-guard` on
`"Contact me at a@b.com"` passes, with `a@b.com` gone from the final text
and exactly one failure span labelled `EMAIL_ADDRESS`. -/
theorem pii_fix_removes_matched_spans :
    (∀ (B : Backend) (es : List String) (nm : String) (dr : GuardDirection) (t : Text)
      (o : ValidationOutcome),
      (∀ l2 ∈ es, B.tokenLabel ("<" ++ l2 ++ ">") = none) →
      Guard.run B ⟨nm, dr, [ValidatorSpec.detectPII es OnFail.fix]⟩ t = Except.ok o →
      ∀ u ∈ t, ∀ l, B.tokenLabel u = some l → l ∈ es → u ∉ o.final_text) ∧
    (Guard.run demoBackend pii_input_guard demoText = Except.ok demoOutcome ∧
      demoOutcome.passed = true ∧ "a@b.com" ∉ demoOutcome.final_text ∧
      demoOutcome.per_validator.length = 1 ∧
      ∀ vd ∈ demoOutcome.per_validator, vd.failed_spans = [⟨3, 4, "EMAIL_ADDRESS"⟩]) := by
  constructor
  · intro B es nm dr t o H hrun u hu l hl hles
    have h2 := piiFixRun B es nm dr t
    rw [hrun] at h2
    injection h2 with h3
    subst h3
    cases hh : piiHits B es t with
    | nil => exact absurd hles (piiHitsFrom_nil_no_match B es t 0 hh u hu l hl)
    | cons hd tl =>
      show u ∉ piiFinal B es t
      simp only [piiFinal, hh]
      exact mem_redact_matched B es t u l H hl hles
  · decide

/-- Claim C5: when no validator of a guard fails on the input text, the run
passes and the text goes through unchanged. -/
theorem run_without_failures_passes_unchanged (B : Backend) (g : Guard) (t : Text)
    (h : ∀ v ∈ g.validators, (checkValidator B v t).passed = true) :
    Guard.run B g t =
      Except.ok ⟨g.name, t, t, true, g.validators.map (fun v => checkValidator B v t)⟩ := by
  unfold Guard.run
  rw [runAux_all_pass B g.validators t h]

/-- Claim C6: dispatching an unregistered guard name fails with
`UnknownGuardError` with a result that does not depend on the detection
backend (no pipeline executes); dispatching a registered name on the empty
text fails with `EmptyInputError`, again independently of the backend. -/
theorem dispatch_unknown_and_empty_input :
    (∀ (B : Backend) (r : GuardRegistry) (nm : String) (t : Text),
      r.get nm = none → dispatch B r nm t = Except.error (DispatchError.unknownGuard nm)) ∧
    (∀ (B B2 : Backend) (r : GuardRegistry) (nm : String) (t : Text),
      r.get nm = none → dispatch B r nm t = dispatch B2 r nm t) ∧
    (∀ (B : Backend) (r : GuardRegistry) (nm : String) (g : Guard),
      r.get nm = some g → dispatch B r nm [] = Except.error DispatchError.emptyInput) ∧
    (∀ (B B2 : Backend) (r : GuardRegistry) (nm : String),
      dispatch B r nm [] = dispatch B2 r nm []) := by
  refine ⟨?_, ?_, ?_, ?_⟩
  · intro B r nm t h
    simp [dispatch, h]
  · intro B B2 r nm t h
    simp [dispatch, h]
  · intro B r nm g h
    simp [dispatch, h]
  · intro B B2 r nm
    cases hG : r.get nm <;> simp [dispatch, hG]

/-- Claim C7: a single-validator `DetectPII`/`fix` guard is idempotent:
run a second time on the final text of a first run (under a backend that
never classifies a placeholder token as PII) it passes with no failed
spans and leaves the text unchanged.  `pii-input-guard` and
`pii-output-guard` are exactly such guards. -/
theorem pii_fix_guard_idempotent :
    ∀ (B : Backend) (es : List String) (nm : String) (dr : GuardDirection) (t : Text)
      (o1 o2 : ValidationOutcome),
      (∀ l2 ∈ es, B.tokenLabel ("<" ++ l2 ++ ">") = none) →
      Guard.run B ⟨nm, dr, [ValidatorSpec.detectPII es OnFail.fix]⟩ t = Except.ok o1 →
      Guard.run B ⟨nm, dr, [ValidatorSpec.detectPII es OnFail.fix]⟩ o1.final_text =
        Except.ok o2 →
      o2.passed = true ∧ o2.final_text = o1.final_text ∧
        ∀ vd ∈ o2.per_validator, vd.failed_spans = [] := by
  intro B es nm dr t o1 o2 H h1 h2
  have e1 := piiFixRun B es nm dr t
  rw [h1] at e1
  injection e1 with e1
  subst e1
  have hnil : piiHits B es (piiFinal B es t) = [] := by
    cases hh : piiHits B es t with
    | nil =>
      simp only [piiFinal, hh]
    | cons hd tl =>
      simp only [piiFinal, hh]
      exact piiHits_redact_nil B es H t 0
  change Guard.run B ⟨nm, dr, [ValidatorSpec.detectPII es OnFail.fix]⟩ (piiFinal B es t) =
    Except.ok o2 at h2
  have e2 := piiFixRun B es nm dr (piiFinal B es t)
  rw [h2] at e2
  injection e2 with e2
  subst e2
  have hfin : piiFinal B es (piiFinal B es t) = piiFinal B es t := by
    show (match piiHits B es (piiFinal B es t) with
          | [] => piiFinal B es t
          | _ => redact B es (piiFinal B es t)) = piiFinal B es t
    rw [hnil]
  have hvd : piiCheck B es OnFail.fix (piiFinal B es t) = ⟨true, [], none, none⟩ := by
    unfold piiCheck
    rw [show piiHits B es (piiFinal B es t) = [] from hnil]
  refine ⟨rfl, hfin, ?_⟩
  intro vd hmem
  change vd ∈ [piiCheck B es OnFail.fix (piiFinal B es t)] at hmem
  rw [hvd] at hmem
  rw [List.mem_singleton] at hmem
  subst hmem
  rfl

/-- Claim C8: `register` fails with `DuplicateGuardError` exactly when the name of the guard is already registered — in which case no registry results — and
otherwise extends the registered names by that name; registering a second
guard named `pii-input-guard` over a first one fails with
`DuplicateGuardError`. -/
theorem register_duplicate_name_detection :
    (∀ (r : GuardRegistry) (g : Guard) (e : RegistryError),
      GuardRegistry.register r g = Except.error e ↔
        (e = RegistryError.duplicateGuard g.name ∧ g.name ∈ r.list_names)) ∧
    (∀ (r r2 : GuardRegistry) (g : Guard),
      GuardRegistry.register r g = Except.ok r2 →
      g.name ∉ r.list_names ∧ r2.list_names = r.list_names ++ [g.name]) ∧
    (∀ (g1 g2 : Guard) (r1 : GuardRegistry),
      g1.name = "pii-input-guard" → g2.name = "pii-input-guard" →
      GuardRegistry.register ⟨[]⟩ g1 = Except.ok r1 →
      GuardRegistry.register r1 g2 =
        Except.error (RegistryError.duplicateGuard "pii-input-guard")) := by
  refine ⟨?_, ?_, ?_⟩
  · intro r g e
    unfold GuardRegistry.register
    by_cases hm : g.name ∈ r.list_names
    · simp [hm]
      exact eq_comm
    · simp [hm]
  · intro r r2 g h
    unfold GuardRegistry.register at h
    by_cases hm : g.name ∈ r.list_names
    · simp [hm] at h
    · simp [hm] at h
      refine ⟨hm, ?_⟩
      rw [← h]
      simp [GuardRegistry.list_names]
  · intro g1 g2 r1 h1 h2 hreg
    unfold GuardRegistry.register at hreg
    simp [GuardRegistry.list_names] at hreg
    subst hreg
    simp [GuardRegistry.register, GuardRegistry.list_names, h1, h2]

/-- Claim C9: the configuration declares four guards with pairwise distinct
names, non-empty validator pipelines and valid parameters (thresholds in
`[0,1]`, non-empty entity lists), so startup registration of all four
succeeds: neither the configuration-error branch nor the duplicate-name
branch is taken. -/
theorem startup_configuration_valid :
    registerAll ⟨[]⟩ configGuards = Except.ok ⟨configGuards⟩ ∧
    GuardRegistry.list_names ⟨configGuards⟩ =
      ["pii-input-guard", "jailbreak-guard", "toxicity-guard", "pii-output-guard"] ∧
    (GuardRegistry.list_names ⟨configGuards⟩).Nodup ∧
    configGuards.all (fun g => decide (g.validators ≠ [])) = true ∧
    configGuards.all guardConfigOk = true ∧
    (0 ≤ jailbreakThreshold ∧ jailbreakThreshold ≤ 1 ∧
      0 ≤ toxicityThreshold ∧ toxicityThreshold ≤ 1 ∧ pii_entities ≠ []) := by
  decide

/-- Claim C10: `pii-input-guard` and `pii-output-guard` carry the identical
validator pipeline and differ only in name and direction, so on every
backend and text they produce the same verdicts, the same `passed` flag and
the same final text. -/
theorem pii_guards_behave_identically :
    pii_input_guard.validators = pii_output_guard.validators ∧
    pii_input_guard.direction = GuardDirection.prompt ∧
    pii_output_guard.direction = GuardDirection.output ∧
    pii_input_guard.name ≠ pii_output_guard.name ∧
    ∀ (B : Backend) (t : Text),
      Except.map outcomeData (Guard.run B pii_input_guard t) =
        Except.map outcomeData (Guard.run B pii_output_guard t) := by
  refine ⟨rfl, rfl, rfl, by decide, ?_⟩
  intro B t
  simp only [Guard.run, pii_input_guard, pii_output_guard]
  cases hr : runAux B [ValidatorSpec.detectPII pii_entities OnFail.fix] t with
  | error e => simp [Except.map]
  | ok q =>
    obtain ⟨tf, ok, vds⟩ := q
    simp [Except.map, outcomeData]

/-- Witness for C1: the exception-policy validator halts a concrete run. -/
theorem guard_passed_aggregation_and_exception_halts_witness :
    runAux demoBackend [] ["kill"] = Except.ok (["kill"], true, []) ∧
    (checkValidator demoBackend exceptionVal ["kill"]).passed = false ∧
    onFailOf exceptionVal = OnFail.exception ∧
    Guard.run demoBackend ⟨"exception-demo", GuardDirection.prompt, [] ++ exceptionVal :: [noopVal]⟩
        ["kill"] =
      Except.error (GuardError.guardRejected (checkValidator demoBackend exceptionVal ["kill"])) :=
  ⟨by decide, by decide, by decide,
    guard_passed_aggregation_and_exception_halts.2 demoBackend "exception-demo"
      GuardDirection.prompt [] [noopVal] exceptionVal ["kill"] ["kill"] true [] (by decide)
      (by decide) (by decide)⟩

/-- Witness for C2: the threading characterisation at a concrete run. -/
theorem guard_run_order_and_text_threading_witness :
    demoOutcome.guard_name = pii_input_guard.name ∧
    demoOutcome.original_text = demoText ∧
    demoOutcome.per_validator =
      List.zipWith (fun v ti => checkValidator demoBackend v ti) pii_input_guard.validators
        (inputs demoBackend pii_input_guard.validators demoText) ∧
    demoOutcome.final_text = finalOf demoBackend pii_input_guard.validators demoText :=
  guard_run_order_and_text_threading demoBackend pii_input_guard demoText demoOutcome (by decide)

/-- Witness for C4: the matched email unit is gone from the final text. -/
theorem pii_fix_removes_matched_spans_witness :
    "a@b.com" ∉ demoOutcome.final_text :=
  pii_fix_removes_matched_spans.1 demoBackend pii_entities "pii-input-guard"
    GuardDirection.prompt demoText demoOutcome (by decide) (by decide) "a@b.com" (by decide)
    "EMAIL_ADDRESS" (by decide) (by decide)

/-- Witness for C5: `toxicity-guard` on a benign text passes unchanged. -/
theorem run_without_failures_passes_unchanged_witness :
    Guard.run demoBackend toxicity_guard ["hello"] =
      Except.ok ⟨toxicity_guard.name, ["hello"], ["hello"], true,
        toxicity_guard.validators.map (fun v => checkValidator demoBackend v ["hello"])⟩ :=
  run_without_failures_passes_unchanged demoBackend toxicity_guard ["hello"] (by decide)

/-- Witness for C6: unknown-name and empty-input dispatch errors on a
concrete registry. -/
theorem dispatch_unknown_and_empty_input_witness :
    dispatch demoBackend demoRegistry "missing-guard" demoText =
      Except.error (DispatchError.unknownGuard "missing-guard") ∧
    dispatch demoBackend demoRegistry "pii-input-guard" [] =
      Except.error DispatchError.emptyInput :=
  ⟨dispatch_unknown_and_empty_input.1 demoBackend demoRegistry "missing-guard" demoText
      (by decide),
    dispatch_unknown_and_empty_input.2.2.1 demoBackend demoRegistry "pii-input-guard"
      pii_input_guard (by decide)⟩

/-- Witness for C7: a second run of the PII guard on its own output. -/
theorem pii_fix_guard_idempotent_witness :
    demoOutcome2.passed = true ∧ demoOutcome2.final_text = demoOutcome.final_text := by
  have h := pii_fix_guard_idempotent demoBackend pii_entities "pii-input-guard"
    GuardDirection.prompt demoText demoOutcome demoOutcome2 (by decide) (by decide) (by decide)
  exact ⟨h.1, h.2.1⟩

/-- Witness for C8: duplicate registration of the name `pii-input-guard`. -/
theorem register_duplicate_name_detection_witness :
    GuardRegistry.register ⟨[pii_input_guard]⟩ shadowGuard =
      Except.error (RegistryError.duplicateGuard "pii-input-guard") :=
  register_duplicate_name_detection.2.2 pii_input_guard shadowGuard ⟨[pii_input_guard]⟩ rfl rfl
    (by decide)
